/-
Verification of the classification-and-aggregation pipeline of
`bin/pr-summary.js` (PR Summary Generator).

The pipeline under verification is pure: it turns a list of commit subject
lines, a list of changed file paths, and per-file added/removed line counts
into a PR-type label, a file categorization, a complexity/risk analysis, a
suggestion list, and rendered markdown fragments.  Each JavaScript function
is embedded as a total Lean function over lists and strings; JavaScript
`NaN` values (from `Number` applied to a non-numeric diff-stat field) are
embedded as `Option.none`.
-/
import Mathlib

namespace PRSummary

/-! ### String primitives

JavaScript string operations used by the script (`includes`, `endsWith`,
`startsWith`, `join`, `toLowerCase`) are modelled over the character list
of a `String`.  `toLowerCase` is modelled on the ASCII range, which is all
the script's keyword matching relies on. -/

/-- `listStartsWith p l` is true iff `p` is an initial segment of `l`. -/
def listStartsWith : List Char → List Char → Bool
  | [], _ => true
  | _ :: _, [] => false
  | p :: ps, c :: cs => p == c && listStartsWith ps cs

/-- `listSubOf needle hay` is true iff `needle` occurs contiguously in `hay`
(the model of JavaScript `String.prototype.includes`). -/
def listSubOf (needle : List Char) : List Char → Bool
  | [] => listStartsWith needle []
  | c :: rest => listStartsWith needle (c :: rest) || listSubOf needle rest

/-- Model of JavaScript `s.includes(sub)`. -/
def strIncludes (s sub : String) : Bool := listSubOf sub.data s.data

/-- Model of JavaScript `s.startsWith(p)` (used for the default exclusion
patterns anchored with `^`). -/
def strStartsWith (s p : String) : Bool := listStartsWith p.data s.data

/-- Model of JavaScript `s.endsWith(suf)` (used for regexes anchored with
`$`, e.g. `\.(scss|css|less|sass)$`). -/
def strEndsWith (s suf : String) : Bool :=
  listStartsWith suf.data.reverse s.data.reverse

/-- ASCII lower-casing of one character, as `String.prototype.toLowerCase`
acts on the ASCII range. -/
def lowerChar (c : Char) : Char :=
  if 65 ≤ c.toNat ∧ c.toNat ≤ 90 then Char.ofNat (c.toNat + 32) else c

/-- Model of JavaScript `s.toLowerCase()` (ASCII range). -/
def strToLower (s : String) : String := ⟨s.data.map lowerChar⟩

/-- Model of JavaScript `xs.join(' ')`. -/
def joinSpace : List String → String
  | [] => ""
  | [s] => s
  | s :: rest => s ++ " " ++ joinSpace rest

/-- Occurrence count of `x` in a list of strings. -/
def countOcc (x : String) : List String → Nat
  | [] => 0
  | y :: ys => (if y == x then 1 else 0) + countOcc x ys

/-! ### Exclusion patterns

An exclusion pattern is embedded as a Boolean predicate on a path string
(`pattern.test(file)`).  A file is excluded iff some pattern matches
(`config.excludePatterns.some((pattern) => pattern.test(file))`). -/

/-- A path is excluded iff any configured pattern matches it. -/
def isExcluded (pats : List (String → Bool)) (file : String) : Bool :=
  pats.any (fun p => p file)

/-- The `defaultConfig.excludePatterns` list of `bin/pr-summary.js`.  Each
regex is start-anchored (`^…` ↦ `strStartsWith`), end-anchored
(`…$` ↦ `strEndsWith`), or both (`^…$` ↦ equality). -/
def defaultExcludePatterns : List (String → Bool) :=
  [ fun f => strStartsWith f ".windsurf/",
    fun f => strStartsWith f ".cursor/",
    fun f => strStartsWith f ".vscode/",
    fun f => strStartsWith f ".idea/",
    fun f => strStartsWith f "node_modules/",
    fun f => strStartsWith f ".next/",
    fun f => strStartsWith f "dist/",
    fun f => strStartsWith f "build/",
    fun f => strStartsWith f "coverage/",
    fun f => strEndsWith f ".log",
    fun f => strStartsWith f ".env",
    fun f => f == ".gitignore",
    fun f => f == "package-lock.json",
    fun f => f == "yarn.lock" ]

/-- `main`'s filtering of the changed-file list:
`allFiles.filter((file) => !config.excludePatterns.some(...))`. -/
def filterFiles (pats : List (String → Bool)) (files : List String) : List String :=
  files.filter (fun f => !isExcluded pats f)

/-- `main`'s duplicate removal, keeping first occurrences:
`.filter((file, index, self) => self.indexOf(file) === index)`. -/
def dedupAux (seen : List String) : List String → List String
  | [] => []
  | x :: xs => if x ∈ seen then dedupAux seen xs else x :: dedupAux (x :: seen) xs

/-- Duplicate removal keeping the first occurrence of each path. -/
def dedupKeepFirst (l : List String) : List String := dedupAux [] l

/-! ### Complexity/risk analyzer (`analyzeComplexity`)

The analyzer parses `git diff --numstat` output: one line per file, whose
first two tab-separated fields are mapped through `Number`.  A field that
is not a number (git prints `-` for binary files) becomes `NaN`, embedded
here as `none`.  `added || 0` is `Option.getD 0`; `added + removed > 200`
is false whenever either operand is `NaN`. -/

/-- One parsed `--numstat` line: `added` and `removed` are `none` when the
corresponding field is not numeric (JavaScript `NaN`). -/
structure NumstatEntry where
  added : Option Nat
  removed : Option Nat
  path : String
deriving DecidableEq

/-- Complexity / risk tier: `'Low' | 'Medium' | 'High'`. -/
inductive Tier where
  | Low
  | Medium
  | High
deriving DecidableEq

/-- Tier order `Low < Medium < High`, as a numeric rank. -/
def tierVal : Tier → Nat
  | .Low => 0
  | .Medium => 1
  | .High => 2

/-- `totalAdded += added || 0` accumulated over all lines. -/
def totalAdded : List NumstatEntry → Nat
  | [] => 0
  | e :: rest => e.added.getD 0 + totalAdded rest

/-- `totalRemoved += removed || 0` accumulated over all lines. -/
def totalRemoved : List NumstatEntry → Nat
  | [] => 0
  | e :: rest => e.removed.getD 0 + totalRemoved rest

/-- `added + removed > 200`: false when either field is `NaN` (comparison
with `NaN` is false in JavaScript). -/
def isLargeLine (e : NumstatEntry) : Bool :=
  match e.added, e.removed with
  | some a, some r => decide (200 < a + r)
  | _, _ => false

/-- `if (added + removed > 200) largeFiles++` accumulated over all lines. -/
def largeFiles : List NumstatEntry → Nat
  | [] => 0
  | e :: rest => (if isLargeLine e then 1 else 0) + largeFiles rest

/-- `const totalChanges = totalAdded + totalRemoved`. -/
def totalChanges (lines : List NumstatEntry) : Nat :=
  totalAdded lines + totalRemoved lines

/-- `let complexity = 'Low'; if (totalChanges > 1000 || largeFiles > 3)
complexity = 'High'; else if (totalChanges > 300 || largeFiles > 1)
complexity = 'Medium';` -/
def complexityFrom (tc lf : Nat) : Tier :=
  let complexity := Tier.Low
  let complexity :=
    if 1000 < tc ∨ 3 < lf then Tier.High
    else if 300 < tc ∨ 1 < lf then Tier.Medium
    else complexity
  complexity

/-- `let risk = 'Low'; if (largeFiles > 2 || totalRemoved > totalAdded * 2)
risk = 'Medium'; if (largeFiles > 5 || totalChanges > 2000) risk = 'High';` -/
def riskFrom (lf ta tr tc : Nat) : Tier :=
  let risk := Tier.Low
  let risk := if 2 < lf ∨ ta * 2 < tr then Tier.Medium else risk
  let risk := if 5 < lf ∨ 2000 < tc then Tier.High else risk
  risk

/-- The record returned by `analyzeComplexity`. -/
structure Analysis where
  complexity : Tier
  risk : Tier
  totalAdded : Nat
  totalRemoved : Nat
  fileCount : Nat
deriving DecidableEq

/-- `analyzeComplexity`: aggregate the parsed numstat lines and derive the
complexity and risk tiers.  `fileCount` is `lines.length`. -/
def analyzeComplexity (lines : List NumstatEntry) : Analysis :=
  { complexity := complexityFrom (totalChanges lines) (largeFiles lines)
    risk := riskFrom (largeFiles lines) (totalAdded lines) (totalRemoved lines)
      (totalChanges lines)
    totalAdded := totalAdded lines
    totalRemoved := totalRemoved lines
    fileCount := lines.length }

/-! ### PR type classifier (`detectPRType`) -/

/-- The `{ type, emoji }` object returned by `detectPRType`. -/
structure PRType where
  type : String
  emoji : String
deriving DecidableEq

/-- `detectPRType(commits, files)`: keyword matching over the lower-cased
space-joined commit subjects and file paths, first match wins. -/
def detectPRType (commits files : List String) : PRType :=
  let commitText := strToLower (joinSpace commits)
  let fileText := strToLower (joinSpace files)
  if strIncludes commitText "fix" || strIncludes commitText "bug" ||
      strIncludes commitText "resolve" then ⟨"Fix", "🐛"⟩
  else if strIncludes commitText "feat" || strIncludes commitText "feature" ||
      strIncludes commitText "add" then ⟨"Feature", "✨"⟩
  else if strIncludes commitText "refactor" ||
      strIncludes commitText "restructure" then ⟨"Refactor", "♻️"⟩
  else if strIncludes commitText "docs" || strIncludes commitText "documentation" ||
      strIncludes fileText ".md" then ⟨"Docs", "📝"⟩
  else if strIncludes commitText "test" || strIncludes fileText "test" ||
      strIncludes fileText "spec" then ⟨"Test", "🧪"⟩
  else if strIncludes commitText "perf" || strIncludes commitText "performance" ||
      strIncludes commitText "optimize" then ⟨"Performance", "⚡"⟩
  else ⟨"Chore", "🔧"⟩

/-- Spec-side formulation of §4.1 of the spec: the classifier's rules as an
ordered list of (predicate over commit text and file text, outcome) pairs,
evaluated first-match-wins with default `Chore`.  Written from the spec's
words, to be compared with the source's if/else chain `detectPRType`. -/
def prRules : List ((String → String → Bool) × PRType) :=
  [ (fun ct _ => strIncludes ct "fix" || strIncludes ct "bug" ||
      strIncludes ct "resolve", ⟨"Fix", "🐛"⟩),
    (fun ct _ => strIncludes ct "feat" || strIncludes ct "feature" ||
      strIncludes ct "add", ⟨"Feature", "✨"⟩),
    (fun ct _ => strIncludes ct "refactor" ||
      strIncludes ct "restructure", ⟨"Refactor", "♻️"⟩),
    (fun ct ft => strIncludes ct "docs" || strIncludes ct "documentation" ||
      strIncludes ft ".md", ⟨"Docs", "📝"⟩),
    (fun ct ft => strIncludes ct "test" || strIncludes ft "test" ||
      strIncludes ft "spec", ⟨"Test", "🧪"⟩),
    (fun ct _ => strIncludes ct "perf" || strIncludes ct "performance" ||
      strIncludes ct "optimize", ⟨"Performance", "⚡"⟩) ]

/-- First-match-wins evaluation of an ordered rule list over the commit
text and file text, with a default outcome. -/
def firstMatch2 (ct ft : String) :
    List ((String → String → Bool) × PRType) → PRType → PRType
  | [], d => d
  | (p, t) :: rest, d => if p ct ft then t else firstMatch2 ct ft rest d

/-- Spec-side classifier: ordered rules, first match wins, default `Chore`. -/
def detectPRTypeSpec (commits files : List String) : PRType :=
  firstMatch2 (strToLower (joinSpace commits)) (strToLower (joinSpace files))
    prRules ⟨"Chore", "🔧"⟩

/-! ### File categorizer (`categorizeFiles`) -/

/-- The fixed, closed set of category keys, in the insertion order of the
`categories` object literal of `categorizeFiles`. -/
inductive CategoryKey where
  | components
  | hooks
  | utils
  | types
  | styles
  | tests
  | docs
  | config
  | scripts
  | other
deriving DecidableEq

/-- The `categories` object: one ordered list of paths per key. -/
structure Categories where
  components : List String
  hooks : List String
  utils : List String
  types : List String
  styles : List String
  tests : List String
  docs : List String
  config : List String
  scripts : List String
  other : List String
deriving DecidableEq

/-- The initial `categories` object with every bucket empty. -/
def emptyCategories : Categories := ⟨[], [], [], [], [], [], [], [], [], []⟩

/-- `file.includes('components/') || file.includes('src/components/')`. -/
def componentsRule (f : String) : Bool :=
  strIncludes f "components/" || strIncludes f "src/components/"

/-- `file.includes('hooks/') || file.includes('src/hooks/')`. -/
def hooksRule (f : String) : Bool :=
  strIncludes f "hooks/" || strIncludes f "src/hooks/"

/-- `file.includes('utils/') || file.includes('src/utils/')`. -/
def utilsRule (f : String) : Bool :=
  strIncludes f "utils/" || strIncludes f "src/utils/"

/-- `file.includes('types/') || file.includes('src/types/')`. -/
def typesRule (f : String) : Bool :=
  strIncludes f "types/" || strIncludes f "src/types/"

/-- `file.match(/\.(scss|css|less|sass)$/)`. -/
def stylesRule (f : String) : Bool :=
  strEndsWith f ".scss" || strEndsWith f ".css" ||
    strEndsWith f ".less" || strEndsWith f ".sass"

/-- `file.match(/\.(test|spec)\.(ts|tsx|js|jsx)$/)`. -/
def testsRule (f : String) : Bool :=
  strEndsWith f ".test.ts" || strEndsWith f ".test.tsx" ||
    strEndsWith f ".test.js" || strEndsWith f ".test.jsx" ||
    strEndsWith f ".spec.ts" || strEndsWith f ".spec.tsx" ||
    strEndsWith f ".spec.js" || strEndsWith f ".spec.jsx"

/-- `file.includes('scripts/') || file.includes('src/scripts/')`. -/
def scriptsRule (f : String) : Bool :=
  strIncludes f "scripts/" || strIncludes f "src/scripts/"

/-- `file.endsWith('.md') && !file.includes('node_modules')`. -/
def docsRule (f : String) : Bool :=
  strEndsWith f ".md" && !strIncludes f "node_modules"

/-- `file.match(/\.(json|yml|yaml|config\.(ts|js))$/)`. -/
def configRule (f : String) : Bool :=
  strEndsWith f ".json" || strEndsWith f ".yml" || strEndsWith f ".yaml" ||
    strEndsWith f ".config.ts" || strEndsWith f ".config.js"

/-- The if/else chain of `categorizeFiles` deciding which bucket one
(non-excluded) file is pushed into. -/
def categoryOf (f : String) : CategoryKey :=
  if componentsRule f then .components
  else if hooksRule f then .hooks
  else if utilsRule f then .utils
  else if typesRule f then .types
  else if stylesRule f then .styles
  else if testsRule f then .tests
  else if scriptsRule f then .scripts
  else if docsRule f then .docs
  else if configRule f then .config
  else .other

/-- `categories.<key>.push(file)`. -/
def pushTo (k : CategoryKey) (f : String) (c : Categories) : Categories :=
  match k with
  | .components => { c with components := c.components ++ [f] }
  | .hooks => { c with hooks := c.hooks ++ [f] }
  | .utils => { c with utils := c.utils ++ [f] }
  | .types => { c with types := c.types ++ [f] }
  | .styles => { c with styles := c.styles ++ [f] }
  | .tests => { c with tests := c.tests ++ [f] }
  | .docs => { c with docs := c.docs ++ [f] }
  | .config => { c with config := c.config ++ [f] }
  | .scripts => { c with scripts := c.scripts ++ [f] }
  | .other => { c with other := c.other ++ [f] }

/-- The body of the `files.forEach` loop of `categorizeFiles`: skip the
file when an exclusion pattern matches, otherwise push it into the bucket
selected by the if/else chain. -/
def categorize1 (pats : List (String → Bool)) (c : Categories) (file : String) :
    Categories :=
  if isExcluded pats file then c else pushTo (categoryOf file) file c

/-- `categorizeFiles(files)`: fold the `forEach` body over the file list,
starting from the empty buckets. -/
def categorizeFiles (pats : List (String → Bool)) (files : List String) :
    Categories :=
  files.foldl (categorize1 pats) emptyCategories

/-- The ten buckets as a list, in category-key order. -/
def allBuckets (c : Categories) : List (List String) :=
  [c.components, c.hooks, c.utils, c.types, c.styles,
   c.tests, c.docs, c.config, c.scripts, c.other]

/-- Total number of occurrences of a path across all ten buckets. -/
def countInBuckets (c : Categories) (f : String) : Nat :=
  ((allBuckets c).map (countOcc f)).sum

/-- Total number of entries across all ten buckets. -/
def lensInBuckets (c : Categories) : Nat :=
  ((allBuckets c).map List.length).sum

/-- Spec-side formulation of §4.2 of the spec: the categorizer's rules as an
ordered list of (predicate, bucket) pairs.  Written from the spec's words,
to be compared with the source's if/else chain `categoryOf`. -/
def catRules : List ((String → Bool) × CategoryKey) :=
  [ (componentsRule, .components), (hooksRule, .hooks), (utilsRule, .utils),
    (typesRule, .types), (stylesRule, .styles), (testsRule, .tests),
    (scriptsRule, .scripts), (docsRule, .docs), (configRule, .config) ]

/-- First-match-wins evaluation of an ordered categorization rule list,
with catch-all `other`. -/
def firstMatchCat (f : String) : List ((String → Bool) × CategoryKey) → CategoryKey
  | [] => .other
  | (p, k) :: rest => if p f then k else firstMatchCat f rest

/-! ### Suggestion engine (`generateSuggestions`) -/

/-- `generateSuggestions(categories, prType)`: start from an empty array
and conditionally push each rule's message(s), in the source's order.
Each `let` rebinding mirrors one `if (...) suggestions.push(...)`. -/
def generateSuggestions (c : Categories) (prType : PRType) : List String :=
  let s : List String := []
  let s := if 0 < c.components.length then
    s ++ ["📸 Consider adding screenshots for UI changes",
          "♿ Verify accessibility with screen reader"] else s
  let s := if 0 < c.hooks.length then
    s ++ ["🧪 Add unit tests for custom hooks"] else s
  let s := if 0 < c.utils.length then
    s ++ ["📊 Aim for 100% test coverage on utility functions"] else s
  let s := if c.tests.length = 0 ∧ prType.type ≠ "Docs" then
    s ++ ["⚠️  No test files modified - consider adding tests"] else s
  let s := if 0 < c.types.length then
    s ++ ["📝 Update JSDoc comments for type changes"] else s
  let s := if 0 < c.styles.length then
    s ++ ["🎨 Test responsive design on mobile devices",
          "🌓 Verify dark mode compatibility (if applicable)"] else s
  s

/-- Spec-side formulation of §4.4 of the spec: the suggestion list as the
concatenation of one conditional block per rule, in the fixed priority
order components → hooks → utils → no-tests → types → styles.  Written
from the spec's words, to be compared with `generateSuggestions`. -/
def suggestionsSpec (c : Categories) (prType : PRType) : List String :=
  (if c.components ≠ [] then
    ["📸 Consider adding screenshots for UI changes",
     "♿ Verify accessibility with screen reader"] else []) ++
  (if c.hooks ≠ [] then ["🧪 Add unit tests for custom hooks"] else []) ++
  (if c.utils ≠ [] then
    ["📊 Aim for 100% test coverage on utility functions"] else []) ++
  (if c.tests = [] ∧ prType.type ≠ "Docs" then
    ["⚠️  No test files modified - consider adding tests"] else []) ++
  (if c.types ≠ [] then ["📝 Update JSDoc comments for type changes"] else []) ++
  (if c.styles ≠ [] then
    ["🎨 Test responsive design on mobile devices",
     "🌓 Verify dark mode compatibility (if applicable)"] else [])

/-! ### Renderers (`generateChangesSection`, `generateFileList`)

Both renderers iterate `Object.entries(categories)`, i.e. the keys in the
insertion order of the `categories` object literal of `categorizeFiles`. -/

/-- The `categoryLabels` lookup of `generateChangesSection`. -/
def categoryLabel : CategoryKey → String
  | .components => "Components"
  | .hooks => "Hooks"
  | .utils => "Utilities"
  | .types => "Types"
  | .styles => "Styles"
  | .tests => "Tests"
  | .scripts => "Scripts"
  | .docs => "Documentation"
  | .config => "Configuration"
  | .other => "Other Files"

/-- `key.charAt(0).toUpperCase() + key.slice(1)` of `generateFileList`. -/
def capKey : CategoryKey → String
  | .components => "Components"
  | .hooks => "Hooks"
  | .utils => "Utils"
  | .types => "Types"
  | .styles => "Styles"
  | .tests => "Tests"
  | .docs => "Docs"
  | .config => "Config"
  | .scripts => "Scripts"
  | .other => "Other"

/-- `Object.entries(categories)`: key/bucket pairs in insertion order. -/
def categoryEntries (c : Categories) : List (CategoryKey × List String) :=
  [(.components, c.components), (.hooks, c.hooks), (.utils, c.utils),
   (.types, c.types), (.styles, c.styles), (.tests, c.tests),
   (.docs, c.docs), (.config, c.config), (.scripts, c.scripts),
   (.other, c.other)]

/-- The text appended by `generateChangesSection` for one category: header,
the first 5 files (three lines each), and a `_...and N more files_` note
when more than 5 files are present.  Empty categories append nothing. -/
def changesBlock (k : CategoryKey) (files : List String) : String :=
  if 0 < files.length then
    "#### " ++ categoryLabel k ++ "\n\n" ++
      String.join ((files.take 5).map (fun file =>
        "**`" ++ file ++ "`**\n\n" ++
          "<!-- TODO: Describe changes in this file -->\n" ++
          "- Change description\n\n")) ++
      (if 5 < files.length then
        "_...and " ++ toString (files.length - 5) ++ " more files_\n\n" else "")
  else ""

/-- `generateChangesSection(categories)`: concatenate the per-category
blocks over `Object.entries`; `section || '<!-- TODO: ... -->'` falls back
to the placeholder when every bucket is empty. -/
def generateChangesSection (c : Categories) : String :=
  let sec := String.join ((categoryEntries c).map (fun e => changesBlock e.1 e.2))
  if sec == "" then "<!-- TODO: Describe your changes -->" else sec

/-- The text appended by `generateFileList` for one category: a bold
capitalized key with the bucket size, the first 10 files as bullet items,
a `- _...and N more_` note past 10, and a blank line. -/
def fileListBlock (k : CategoryKey) (files : List String) : String :=
  if 0 < files.length then
    "**" ++ capKey k ++ "** (" ++ toString files.length ++ "):\n" ++
      String.join ((files.take 10).map (fun file => "- `" ++ file ++ "`\n")) ++
      (if 10 < files.length then
        "- _...and " ++ toString (files.length - 10) ++ " more_\n" else "") ++
      "\n"
  else ""

/-- `generateFileList(categories)`: concatenate the per-category blocks
over `Object.entries`; `list || '- No files modified'` falls back to the
placeholder when every bucket is empty. -/
def generateFileList (c : Categories) : String :=
  let l := String.join ((categoryEntries c).map (fun e => fileListBlock e.1 e.2))
  if l == "" then "- No files modified" else l

/-- The fixed category-key order of §3 of the spec. -/
def categoryKeyOrder : List CategoryKey :=
  [.components, .hooks, .utils, .types, .styles,
   .tests, .docs, .config, .scripts, .other]

/-- Bucket lookup by category key. -/
def bucketOf (c : Categories) : CategoryKey → List String
  | .components => c.components
  | .hooks => c.hooks
  | .utils => c.utils
  | .types => c.types
  | .styles => c.styles
  | .tests => c.tests
  | .docs => c.docs
  | .config => c.config
  | .scripts => c.scripts
  | .other => c.other

/-- Spec-side per-category block of the changes breakdown: at most 5 files,
a truncation note stating how many more remain when the category has more
than 5, nothing for an empty category.  Written from the spec's words (the
literal texts are the source's), to be compared with `changesBlock`. -/
def changesBlockSpec (k : CategoryKey) (files : List String) : String :=
  if files = [] then ""
  else
    "#### " ++ categoryLabel k ++ "\n\n" ++
      String.join ((files.take 5).map (fun file =>
        "**`" ++ file ++ "`**\n\n" ++
          "<!-- TODO: Describe changes in this file -->\n" ++
          "- Change description\n\n")) ++
      (if 5 < files.length then
        "_...and " ++ toString (files.length - 5) ++ " more files_\n\n" else "")

/-- Spec-side changes breakdown: iterate the categories in the fixed
category-key order of §3, with the empty-document fallback. -/
def changesSectionSpec (c : Categories) : String :=
  let sec := String.join (categoryKeyOrder.map (fun k => changesBlockSpec k (bucketOf c k)))
  if sec == "" then "<!-- TODO: Describe your changes -->" else sec

/-- Spec-side per-category block of the full file listing: at most 10
files, a truncation note past 10, nothing for an empty category. -/
def fileListBlockSpec (k : CategoryKey) (files : List String) : String :=
  if files = [] then ""
  else
    "**" ++ capKey k ++ "** (" ++ toString files.length ++ "):\n" ++
      String.join ((files.take 10).map (fun file => "- `" ++ file ++ "`\n")) ++
      (if 10 < files.length then
        "- _...and " ++ toString (files.length - 10) ++ " more_\n" else "") ++
      "\n"

/-- Spec-side full file listing: fixed category-key order, fallback text
when everything is empty. -/
def fileListSpec (c : Categories) : String :=
  let l := String.join (categoryKeyOrder.map (fun k => fileListBlockSpec k (bucketOf c k)))
  if l == "" then "- No files modified" else l

/-! ### The `main` pipeline

`main` collects raw inputs from git, then: removes duplicate paths keeping
first occurrences, filters the file list through the exclusion patterns,
classifies, categorizes, analyzes the (unfiltered) numstat output, and
generates suggestions.  `files` is what `detectPRType`, `categorizeFiles`
and `generateAIPrompt` consume; `analyzeComplexity` consumes the raw
`git diff --numstat` lines directly. -/

/-- The intermediate values `main` computes and hands to the renderers. -/
structure MainResult where
  files : List String
  prType : PRType
  categories : Categories
  analysis : Analysis
  suggestions : List String
deriving DecidableEq

/-- The pure dataflow of `main` from raw git outputs to the renderer
inputs. -/
def mainPipeline (pats : List (String → Bool)) (commits rawFiles : List String)
    (numstat : List NumstatEntry) : MainResult :=
  let allFiles := dedupKeepFirst rawFiles
  let files := allFiles.filter (fun f => !isExcluded pats f)
  let prType := detectPRType commits files
  let categories := categorizeFiles pats files
  let analysis := analyzeComplexity numstat
  let suggestions := generateSuggestions categories prType
  { files := files, prType := prType, categories := categories,
    analysis := analysis, suggestions := suggestions }

/-! ### Analyzer lemmas -/

lemma totalAdded_append (l1 l2 : List NumstatEntry) :
    totalAdded (l1 ++ l2) = totalAdded l1 + totalAdded l2 := by
  induction l1 with
  | nil => simp [totalAdded]
  | cons e rest ih => simp [totalAdded, ih]; omega

lemma totalRemoved_append (l1 l2 : List NumstatEntry) :
    totalRemoved (l1 ++ l2) = totalRemoved l1 + totalRemoved l2 := by
  induction l1 with
  | nil => simp [totalRemoved]
  | cons e rest ih => simp [totalRemoved, ih]; omega

lemma largeFiles_append (l1 l2 : List NumstatEntry) :
    largeFiles (l1 ++ l2) = largeFiles l1 + largeFiles l2 := by
  induction l1 with
  | nil => simp [largeFiles]
  | cons e rest ih => simp [largeFiles, ih]; omega

lemma complexityFrom_mono {tc1 lf1 tc2 lf2 : Nat} (h1 : tc1 ≤ tc2)
    (h2 : lf1 ≤ lf2) :
    tierVal (complexityFrom tc1 lf1) ≤ tierVal (complexityFrom tc2 lf2) := by
  simp only [complexityFrom]
  repeat' split
  all_goals simp only [tierVal]
  all_goals omega

lemma complexityFrom_High_iff (tc lf : Nat) :
    complexityFrom tc lf = Tier.High ↔ (1000 < tc ∨ 3 < lf) := by
  simp only [complexityFrom]
  split
  · simp_all
  · split <;> simp_all

lemma complexityFrom_Medium_iff (tc lf : Nat) :
    complexityFrom tc lf = Tier.Medium ↔
      (¬(1000 < tc ∨ 3 < lf) ∧ (300 < tc ∨ 1 < lf)) := by
  simp only [complexityFrom]
  split
  · simp_all
  · split <;> simp_all

lemma complexityFrom_Low_iff (tc lf : Nat) :
    complexityFrom tc lf = Tier.Low ↔
      (¬(1000 < tc ∨ 3 < lf) ∧ ¬(300 < tc ∨ 1 < lf)) := by
  simp only [complexityFrom]
  split
  · simp_all
  · split <;> simp_all

lemma riskFrom_High_iff (lf ta tr tc : Nat) :
    riskFrom lf ta tr tc = Tier.High ↔ (5 < lf ∨ 2000 < tc) := by
  simp only [riskFrom]
  split
  · simp_all
  · split <;> simp_all

lemma riskFrom_Medium_iff (lf ta tr tc : Nat) :
    riskFrom lf ta tr tc = Tier.Medium ↔
      (¬(5 < lf ∨ 2000 < tc) ∧ (2 < lf ∨ ta * 2 < tr)) := by
  simp only [riskFrom]
  split
  · simp_all
  · split <;> simp_all

lemma riskFrom_Low_iff (lf ta tr tc : Nat) :
    riskFrom lf ta tr tc = Tier.Low ↔
      (¬(5 < lf ∨ 2000 < tc) ∧ ¬(2 < lf ∨ ta * 2 < tr)) := by
  simp only [riskFrom]
  split
  · simp_all
  · split <;> simp_all

/-- C1 (amended): increasing a single file's added+removed line count never
decreases the complexity tier (under the order Low < Medium < High).  The
original claim also asserted this for the risk tier, which `C1_risk_cex`
refutes: risk depends on `totalRemoved > totalAdded * 2`, which can flip
from true to false when a file's added count grows. -/
theorem C1_complexity_mono (pre post : List NumstatEntry) (p : String)
    (a r a2 r2 : Nat) (h : a + r ≤ a2 + r2) :
    tierVal (analyzeComplexity (pre ++ ⟨some a, some r, p⟩ :: post)).complexity ≤
      tierVal (analyzeComplexity (pre ++ ⟨some a2, some r2, p⟩ :: post)).complexity := by
  have hlarge : (if isLargeLine ⟨some a, some r, p⟩ then (1 : Nat) else 0) ≤
      (if isLargeLine ⟨some a2, some r2, p⟩ then (1 : Nat) else 0) := by
    simp only [isLargeLine]
    by_cases h1 : 200 < a + r
    · have h2 : 200 < a2 + r2 := by omega
      simp [h1, h2]
    · simp [h1]
  show tierVal (complexityFrom _ _) ≤ tierVal (complexityFrom _ _)
  apply complexityFrom_mono
  · simp only [totalChanges, totalAdded_append, totalRemoved_append,
      totalAdded, totalRemoved, Option.getD_some]
    omega
  · simp only [largeFiles_append, largeFiles]
    omega

/-- C1 witness: a concrete increase of one file's added+removed count with
the complexity-tier conclusion instantiated. -/
theorem C1_witness :
    0 + 0 ≤ 1500 + 601 ∧
    tierVal (analyzeComplexity ([] ++ ⟨some 0, some 0, "f"⟩ :: [])).complexity ≤
      tierVal (analyzeComplexity ([] ++ ⟨some 1500, some 601, "f"⟩ :: [])).complexity :=
  ⟨by omega, C1_complexity_mono [] [] "f" 0 0 1500 601 (by omega)⟩

/-- C1 counterexample: a single file with 0 added / 100 removed lines gets
risk Medium (100 removed > 2 × 0 added), but increasing its added count to
60 (so added+removed grows from 100 to 160) drops the risk to Low — the
risk tier is not monotone in a file's added+removed count. -/
theorem C1_risk_cex :
    (analyzeComplexity [⟨some 0, some 100, "f"⟩]).risk = Tier.Medium ∧
    (analyzeComplexity [⟨some 60, some 100, "f"⟩]).risk = Tier.Low ∧
    0 + 100 < 60 + 100 := by decide

/-- C3: the analyzer's complexity tier is High iff totalChanges > 1000 or
largeFiles > 3, else Medium iff totalChanges > 300 or largeFiles > 1, else
Low; its risk tier is High iff largeFiles > 5 or totalChanges > 2000, else
Medium iff largeFiles > 2 or totalRemoved > 2 × totalAdded, else Low; and a
fully non-numeric numstat line (both fields NaN) contributes zero to every
total and to the large-file count, only incrementing the file count —
no error is possible, the analyzer being a total function. -/
theorem C3_analyzer (lines : List NumstatEntry) (p : String) :
    ((analyzeComplexity lines).complexity = Tier.High ↔
      (1000 < totalChanges lines ∨ 3 < largeFiles lines)) ∧
    ((analyzeComplexity lines).complexity = Tier.Medium ↔
      (¬(1000 < totalChanges lines ∨ 3 < largeFiles lines) ∧
        (300 < totalChanges lines ∨ 1 < largeFiles lines))) ∧
    ((analyzeComplexity lines).complexity = Tier.Low ↔
      (¬(1000 < totalChanges lines ∨ 3 < largeFiles lines) ∧
        ¬(300 < totalChanges lines ∨ 1 < largeFiles lines))) ∧
    ((analyzeComplexity lines).risk = Tier.High ↔
      (5 < largeFiles lines ∨ 2000 < totalChanges lines)) ∧
    ((analyzeComplexity lines).risk = Tier.Medium ↔
      (¬(5 < largeFiles lines ∨ 2000 < totalChanges lines) ∧
        (2 < largeFiles lines ∨ totalAdded lines * 2 < totalRemoved lines))) ∧
    ((analyzeComplexity lines).risk = Tier.Low ↔
      (¬(5 < largeFiles lines ∨ 2000 < totalChanges lines) ∧
        ¬(2 < largeFiles lines ∨ totalAdded lines * 2 < totalRemoved lines))) ∧
    analyzeComplexity (⟨none, none, p⟩ :: lines) =
      { analyzeComplexity lines with
          fileCount := (analyzeComplexity lines).fileCount + 1 } := by
  refine ⟨complexityFrom_High_iff _ _, complexityFrom_Medium_iff _ _,
    complexityFrom_Low_iff _ _, riskFrom_High_iff _ _ _ _,
    riskFrom_Medium_iff _ _ _ _, riskFrom_Low_iff _ _ _ _, ?_⟩
  simp [analyzeComplexity, totalChanges, totalAdded, totalRemoved,
    largeFiles, isLargeLine]

/-! ### Categorizer counting lemmas -/

lemma countOcc_append (x : String) (l1 l2 : List String) :
    countOcc x (l1 ++ l2) = countOcc x l1 + countOcc x l2 := by
  induction l1 with
  | nil => simp [countOcc]
  | cons y ys ih => simp [countOcc, ih]; omega

lemma countInBuckets_pushTo (k : CategoryKey) (x f : String) (c : Categories) :
    countInBuckets (pushTo k x c) f =
      countInBuckets c f + (if x == f then 1 else 0) := by
  cases k <;>
    simp [pushTo, countInBuckets, allBuckets, countOcc_append, countOcc] <;>
    omega

lemma lensInBuckets_pushTo (k : CategoryKey) (x : String) (c : Categories) :
    lensInBuckets (pushTo k x c) = lensInBuckets c + 1 := by
  cases k <;> simp [pushTo, lensInBuckets, allBuckets] <;> omega

lemma countInBuckets_foldl (pats : List (String → Bool)) (files : List String)
    (c : Categories) (f : String) :
    countInBuckets (files.foldl (categorize1 pats) c) f =
      countInBuckets c f + countOcc f (filterFiles pats files) := by
  induction files generalizing c with
  | nil => simp [filterFiles, countOcc]
  | cons x xs ih =>
    simp only [List.foldl_cons]
    rw [ih]
    by_cases hx : isExcluded pats x
    · simp [categorize1, hx, filterFiles, List.filter_cons]
    · simp [categorize1, hx, filterFiles, List.filter_cons,
        countInBuckets_pushTo, countOcc]
      omega

lemma lensInBuckets_foldl (pats : List (String → Bool)) (files : List String)
    (c : Categories) :
    lensInBuckets (files.foldl (categorize1 pats) c) =
      lensInBuckets c + (filterFiles pats files).length := by
  induction files generalizing c with
  | nil => simp [filterFiles]
  | cons x xs ih =>
    simp only [List.foldl_cons]
    rw [ih]
    by_cases hx : isExcluded pats x
    · simp [categorize1, hx, filterFiles, List.filter_cons]
    · simp [categorize1, hx, filterFiles, List.filter_cons, lensInBuckets_pushTo]
      omega

/-- Per-path form of the partition property: occurrences of a path across
the ten buckets equal its occurrences in the exclusion-filtered input. -/
lemma categorize_count (pats : List (String → Bool)) (files : List String)
    (f : String) :
    countInBuckets (categorizeFiles pats files) f =
      countOcc f (filterFiles pats files) := by
  have h := countInBuckets_foldl pats files emptyCategories f
  simpa [categorizeFiles, countInBuckets, allBuckets, emptyCategories,
    countOcc] using h

/-- An excluded path never survives the exclusion filter, whatever the
input list. -/
lemma countOcc_filterFiles (pats : List (String → Bool)) (f : String)
    (h : isExcluded pats f = true) (l : List String) :
    countOcc f (filterFiles pats l) = 0 := by
  induction l with
  | nil => rfl
  | cons x xs ih =>
    simp only [filterFiles, List.filter_cons] at ih ⊢
    split
    · rename_i hx
      have hxf : (x == f) = false := by
        cases hxf : x == f
        · rfl
        · have hx2 : x = f := by simpa using hxf
          rw [hx2, h] at hx
          simp at hx
      simp [countOcc, hxf, ih]
    · exact ih

/-- C5: the file categorizer places every non-excluded input file in
exactly one of the ten category buckets — counted with multiplicity, the
buckets partition the exclusion-filtered input, with `other` as the
catch-all, so no non-excluded file is dropped. -/
theorem C5_partition (pats : List (String → Bool)) (files : List String)
    (f : String) :
    countInBuckets (categorizeFiles pats files) f =
      countOcc f (filterFiles pats files) :=
  categorize_count pats files f

/-- C2 (amended): a file path matching any exclusion pattern never appears
in `main`'s filtered file list (the list fed to the classifier, the
AI-prompt file listing, and the renderers) nor in any bucket of the file
categorization.  The original claim further asserted that the exclusion
patterns are applied to the change counting feeding the complexity/risk
analyzer; `C2_analyzer_cex` refutes that part: `analyzeComplexity`
consumes the raw `git diff --numstat` lines with no exclusion filtering. -/
theorem C2_exclusion (pats : List (String → Bool)) (commits rawFiles : List String)
    (numstat : List NumstatEntry) (f : String) (h : isExcluded pats f = true) :
    f ∉ (mainPipeline pats commits rawFiles numstat).files ∧
    countInBuckets (mainPipeline pats commits rawFiles numstat).categories f = 0 := by
  constructor
  · simp [mainPipeline, List.mem_filter, h]
  · show countInBuckets (categorizeFiles pats _) f = 0
    rw [categorize_count, countOcc_filterFiles pats f h]

/-- C2 witness: with the default exclusion patterns, `node_modules/x.js`
is excluded and appears neither in the pipeline's file list nor in any
category bucket. -/
theorem C2_witness :
    isExcluded defaultExcludePatterns "node_modules/x.js" = true ∧
    ("node_modules/x.js" ∉
      (mainPipeline defaultExcludePatterns ["fix: a"]
        ["node_modules/x.js", "README.md"] []).files ∧
    countInBuckets
      (mainPipeline defaultExcludePatterns ["fix: a"]
        ["node_modules/x.js", "README.md"] []).categories "node_modules/x.js" = 0) :=
  ⟨by decide,
    C2_exclusion defaultExcludePatterns ["fix: a"]
      ["node_modules/x.js", "README.md"] [] "node_modules/x.js" (by decide)⟩

/-- C2 counterexample: the exclusion patterns are not applied to the
change counting.  `package-lock.json` matches a default exclusion pattern,
yet its numstat line alone drives the pipeline's complexity to High;
filtering the numstat lines through the same patterns (what the claim
asserts happens) would leave no lines and complexity Low. -/
theorem C2_analyzer_cex :
    isExcluded defaultExcludePatterns "package-lock.json" = true ∧
    (mainPipeline defaultExcludePatterns [] []
      [⟨some 1500, some 600, "package-lock.json"⟩]).analysis.complexity = Tier.High ∧
    (analyzeComplexity ([⟨some 1500, some 600, "package-lock.json"⟩].filter
      (fun e => !isExcluded defaultExcludePatterns e.path))).complexity = Tier.Low := by
  decide

/-- C9: the classifier, categorizer and analyzer are total functions with
well-formed outcomes on every input: the classifier always returns one of
the seven labels (`Chore` the default), the categorizer accounts for every
non-excluded input file across its ten buckets (`other` the catch-all),
and the analyzer always returns tiers from {Low, Medium, High} (starting
from Low/Low defaults) — no input can make any of the three stages fail. -/
theorem C9_totality (commits files : List String) (pats : List (String → Bool))
    (fs : List String) (lines : List NumstatEntry) :
    (detectPRType commits files).type ∈
      (["Fix", "Feature", "Refactor", "Docs", "Test", "Performance", "Chore"] :
        List String) ∧
    lensInBuckets (categorizeFiles pats fs) = (filterFiles pats fs).length ∧
    ((analyzeComplexity lines).complexity = Tier.Low ∨
      (analyzeComplexity lines).complexity = Tier.Medium ∨
      (analyzeComplexity lines).complexity = Tier.High) ∧
    ((analyzeComplexity lines).risk = Tier.Low ∨
      (analyzeComplexity lines).risk = Tier.Medium ∨
      (analyzeComplexity lines).risk = Tier.High) := by
  refine ⟨?_, ?_, ?_, ?_⟩
  · simp only [detectPRType]
    repeat' split
    all_goals simp
  · have h := lensInBuckets_foldl pats fs emptyCategories
    simpa [categorizeFiles, lensInBuckets, allBuckets, emptyCategories] using h
  · cases (analyzeComplexity lines).complexity <;> simp
  · cases (analyzeComplexity lines).risk <;> simp

/-! ### Classifier claims -/

/-- C4: the type classifier agrees with the ordered first-match-wins rule
list (Fix, Feature, Refactor, Docs, Test, Performance, default Chore) over
the lower-cased space-joined commit text and file text; commit text
containing both a "fix" and a "feat" keyword always yields Fix, never
Feature; and empty commit and file inputs yield Chore. -/
theorem C4_classifier (commits files : List String) :
    detectPRType commits files = detectPRTypeSpec commits files ∧
    (strIncludes (strToLower (joinSpace commits)) "fix" = true →
      strIncludes (strToLower (joinSpace commits)) "feat" = true →
      (detectPRType commits files).type = "Fix") ∧
    detectPRType [] [] = ⟨"Chore", "🔧"⟩ := by
  refine ⟨rfl, ?_, by decide⟩
  intro h1 h2
  simp [detectPRType, h1]

/-- C4 witness: a commit subject containing both "fix" and "feat" (after
lower-casing) is classified Fix. -/
theorem C4_witness :
    strIncludes (strToLower (joinSpace ["Fix: feat support"])) "fix" = true ∧
    strIncludes (strToLower (joinSpace ["Fix: feat support"])) "feat" = true ∧
    (detectPRType ["Fix: feat support"] []).type = "Fix" :=
  ⟨by decide, by decide,
    (C4_classifier ["Fix: feat support"] []).2.1 (by decide) (by decide)⟩

/-! ### Categorizer rule-order claims -/

/-- C6 (amended): the categorizer's placement equals first-match-wins
evaluation of the rule list in the fixed order components, hooks, utils,
types, styles, tests, scripts, docs, config, with `other` the catch-all
for unmatched paths; a file matching one of the directory rules
components/hooks/utils/types is placed by that directory rule whatever
extension rules it also matches.  The original claim's blanket "a file
matching both a directory rule and an extension rule is placed by the
directory rule" fails for the scripts directory rule, which is tested
after the styles and tests extension rules (`C6_scripts_cex`). -/
theorem C6_rule_order (f : String) :
    categoryOf f = firstMatchCat f catRules ∧
    ((componentsRule f || hooksRule f || utilsRule f || typesRule f) = true →
      (categoryOf f = CategoryKey.components ∨ categoryOf f = CategoryKey.hooks ∨
        categoryOf f = CategoryKey.utils ∨ categoryOf f = CategoryKey.types)) ∧
    ((componentsRule f = false ∧ hooksRule f = false ∧ utilsRule f = false ∧
      typesRule f = false ∧ stylesRule f = false ∧ testsRule f = false ∧
      scriptsRule f = false ∧ docsRule f = false ∧ configRule f = false) →
      categoryOf f = CategoryKey.other) := by
  refine ⟨rfl, ?_, ?_⟩
  · intro h
    cases hc : componentsRule f <;> cases hh : hooksRule f <;>
      cases hu : utilsRule f <;> cases ht : typesRule f <;>
      simp_all [categoryOf]
  · intro h
    obtain ⟨h1, h2, h3, h4, h5, h6, h7, h8, h9⟩ := h
    simp [categoryOf, h1, h2, h3, h4, h5, h6, h7, h8, h9]

/-- C6 witness: an unmatched path lands in `other`, and a path matching
both the utils directory rule and the styles extension rule is placed by
the directory rule. -/
theorem C6_witness :
    categoryOf "Makefile" = CategoryKey.other ∧
    (categoryOf "src/utils/a.css" = CategoryKey.components ∨
      categoryOf "src/utils/a.css" = CategoryKey.hooks ∨
      categoryOf "src/utils/a.css" = CategoryKey.utils ∨
      categoryOf "src/utils/a.css" = CategoryKey.types) :=
  ⟨(C6_rule_order "Makefile").2.2 (by decide),
    (C6_rule_order "src/utils/a.css").2.1 (by decide)⟩

/-- C6 counterexample: `scripts/theme.css` matches both the scripts
directory rule and the styles extension rule, but is placed in `styles` —
the extension rule wins, because the scripts directory rule is tested
after the styles extension rule. -/
theorem C6_scripts_cex :
    scriptsRule "scripts/theme.css" = true ∧
    stylesRule "scripts/theme.css" = true ∧
    categoryOf "scripts/theme.css" = CategoryKey.styles ∧
    CategoryKey.styles ≠ CategoryKey.scripts := by decide

/-! ### Suggestion-engine claim -/

lemma ite_append_list (c : Prop) [Decidable c] (s xs : List String) :
    (if c then s ++ xs else s) = s ++ (if c then xs else []) := by
  split <;> simp

/-- C7: the suggestion engine evaluates its rules in the fixed order
components → hooks → utils → no-tests → types → styles, appending the
corresponding messages whenever each rule's condition holds (two for
non-empty components, one for non-empty hooks, one for non-empty utils,
one warning when tests is empty and the classification is not Docs, one
for non-empty types, two for non-empty styles): its output equals the
in-order concatenation of the per-rule conditional blocks, so several
rules can fire in one run and the output order is the rule priority
order. -/
theorem C7_suggestions (c : Categories) (prType : PRType) :
    generateSuggestions c prType = suggestionsSpec c prType := by
  simp only [generateSuggestions, ite_append_list]
  simp [suggestionsSpec, List.length_pos, List.length_eq_zero, List.append_assoc]

/-! ### Renderer claim -/

lemma changesBlockSpec_eq (k : CategoryKey) (fs : List String) :
    changesBlockSpec k fs = changesBlock k fs := by
  cases fs <;> simp [changesBlockSpec, changesBlock]

lemma fileListBlockSpec_eq (k : CategoryKey) (fs : List String) :
    fileListBlockSpec k fs = fileListBlock k fs := by
  cases fs <;> simp [fileListBlockSpec, fileListBlock]

/-- C8: the rendered per-category changes breakdown lists at most 5 files
per category with a truncation note stating how many more remain when a
category has more than 5; the per-category file listing lists at most 10
files with the analogous note past 10; and both iterate the categories in
the fixed key order components, hooks, utils, types, styles, tests, docs,
config, scripts, other — stated as equality with the spec-side renderers
built from exactly those caps, notes and key order. -/
theorem C8_renderers (c : Categories) :
    generateChangesSection c = changesSectionSpec c ∧
    generateFileList c = fileListSpec c := by
  constructor <;>
    simp [generateChangesSection, changesSectionSpec, generateFileList,
      fileListSpec, categoryEntries, categoryKeyOrder, bucketOf,
      changesBlockSpec_eq, fileListBlockSpec_eq]

/-! ### Docs-rule claim -/

lemma listStartsWith_same_head {a b : Char} {as bs l : List Char}
    (ha : listStartsWith (a :: as) l = true)
    (hb : listStartsWith (b :: bs) l = true) : a = b := by
  cases l with
  | nil => simp [listStartsWith] at ha
  | cons c cs =>
    simp only [listStartsWith, Bool.and_eq_true, beq_iff_eq] at ha hb
    exact ha.1.trans hb.1.symm

/-- A path ending in `.md` matches none of the config-rule suffixes (their
last characters differ from `d`). -/
lemma configRule_false_of_md {f : String} (h : strEndsWith f ".md" = true) :
    configRule f = false := by
  have hd : listStartsWith ('d' :: ['m', '.']) f.data.reverse = true := h
  have hne : ∀ (c : Char) (cs : List Char), c ≠ 'd' →
      listStartsWith (c :: cs) f.data.reverse = false := by
    intro c cs hcn
    cases hcs : listStartsWith (c :: cs) f.data.reverse
    · rfl
    · exact absurd (listStartsWith_same_head hcs hd) hcn
  have e1 : strEndsWith f ".json" = false := hne 'n' ['o', 's', 'j', '.'] (by decide)
  have e2 : strEndsWith f ".yml" = false := hne 'l' ['m', 'y', '.'] (by decide)
  have e3 : strEndsWith f ".yaml" = false := hne 'l' ['m', 'a', 'y', '.'] (by decide)
  have e4 : strEndsWith f ".config.ts" = false :=
    hne 's' ['t', '.', 'g', 'i', 'f', 'n', 'o', 'c', '.'] (by decide)
  have e5 : strEndsWith f ".config.js" = false :=
    hne 's' ['j', '.', 'g', 'i', 'f', 'n', 'o', 'c', '.'] (by decide)
  simp [configRule, e1, e2, e3, e4, e5]

/-- C10: a file path ending in `.md` that matches no earlier
categorization rule and contains `node_modules` anywhere is placed in
`other`, not `docs` — the docs rule requires both ending in `.md` and not
containing `node_modules`. -/
theorem C10_md_node_modules (f : String)
    (h1 : strEndsWith f ".md" = true)
    (h2 : strIncludes f "node_modules" = true)
    (hc : componentsRule f = false) (hh : hooksRule f = false)
    (hu : utilsRule f = false) (ht : typesRule f = false)
    (hs : stylesRule f = false) (hte : testsRule f = false)
    (hsc : scriptsRule f = false) :
    categoryOf f = CategoryKey.other := by
  have hdocs : docsRule f = false := by simp [docsRule, h1, h2]
  have hconf : configRule f = false := configRule_false_of_md h1
  simp [categoryOf, hc, hh, hu, ht, hs, hte, hsc, hdocs, hconf]

/-- C10 witness: `vendor/node_modules/a.md` ends in `.md`, contains
`node_modules`, matches no earlier rule, and lands in `other`. -/
theorem C10_witness :
    strEndsWith "vendor/node_modules/a.md" ".md" = true ∧
    strIncludes "vendor/node_modules/a.md" "node_modules" = true ∧
    categoryOf "vendor/node_modules/a.md" = CategoryKey.other :=
  ⟨by decide, by decide,
    C10_md_node_modules "vendor/node_modules/a.md" (by decide) (by decide)
      (by decide) (by decide) (by decide) (by decide) (by decide) (by decide)
      (by decide)⟩

end PRSummary
